import Mathlib

/-
Verification of the hazard recognition and learning pipeline of the
pot_hole_detector repository. The definitions below are shallow embeddings
of the TypeScript sources: src/types.ts, src/services/localModelService.ts,
src/services/supabaseClient.ts and the store/matching logic of src/App.tsx.
JavaScript numbers are idealized as real numbers.
-/

namespace PotholeDetector

/-- HazardType enum from src/types.ts. -/
inductive HazardType where
  | POTHOLE
  | COLLISION_RISK
  | PEDESTRIAN
  | VEHICLE
  | LEARNED
deriving DecidableEq

/-- LearnedSample interface from src/types.ts: a persisted embedding plus
thumbnail and creation timestamp (milliseconds). -/
structure LearnedSample where
  id : String
  embedding : List ℝ
  thumbnail : String
  timestamp : ℕ

/-- Detection interface from src/types.ts. Optional fields are Options;
bbox is (yMin, xMin, yMax, xMax). -/
structure Detection where
  id : String
  type : HazardType
  confidence : ℝ
  bbox : Option (ℝ × ℝ × ℝ × ℝ)
  distance : Option ℝ
  timestamp : ℕ
  label : Option String
  matchScore : Option ℝ

/-- Test whether the pattern list occurs at the start of the list. -/
def beginsWith : List Char → List Char → Bool
  | [], _ => true
  | _ :: _, [] => false
  | p :: ps, c :: cs => (p == c) && beginsWith ps cs

/-- Test whether the pattern list occurs contiguously anywhere in the list. -/
def containsSeq (pat : List Char) : List Char → Bool
  | [] => beginsWith pat []
  | c :: cs => beginsWith pat (c :: cs) || containsSeq pat cs

/-- JavaScript String.prototype.includes: substring containment. -/
def includes (s pat : String) : Bool :=
  containsSeq pat.data s.data

/-- JavaScript String.prototype.toLowerCase as used on category names:
each character is lowercased. This is String.toLower of the standard
library written over the character list so that concrete category names
evaluate inside the kernel. -/
def toLowerStr (s : String) : String :=
  ⟨s.data.map Char.toLower⟩

/-- Raw detector output consumed by processDetections: the first category
name and score, and the pixel-unit bounding box. -/
structure RawDetection where
  categoryName : String
  score : ℝ
  originX : ℝ
  originY : ℝ
  width : ℝ
  height : ℝ

/-- Dot-product accumulation of the loop in computeCosineSimilarity
(src/services/localModelService.ts, lines 72 to 76), over the zipped
vectors: the loop indexes both arrays in lockstep and is only reached
when the lengths agree. -/
def dotProduct (a b : List ℝ) : ℝ :=
  (List.zip a b).foldl (fun acc p => acc + p.1 * p.2) 0

/-- Accumulated sum of squares (the mA and mB accumulators of
computeCosineSimilarity). -/
def sumSq (a : List ℝ) : ℝ :=
  a.foldl (fun acc x => acc + x * x) 0

open Classical in
/-- computeCosineSimilarity from src/services/localModelService.ts,
lines 67 to 79: returns 0 when lengths differ, otherwise
dot(a,b) divided by sqrt(mA) * sqrt(mB), with 0 when that denominator
is zero. -/
noncomputable def computeCosineSimilarity (a b : List ℝ) : ℝ :=
  if a.length ≠ b.length then 0
  else
    let denominator := Real.sqrt (sumSq a) * Real.sqrt (sumSq b)
    if denominator = 0 then 0 else dotProduct a b / denominator

open Classical in
/-- Classification and distance logic of processDetections
(src/services/localModelService.ts, lines 84 to 122) for a single raw
detection. The random id suffix generated by Math.random is passed in
as the freshId argument; rawCategory is the lowercased category name. -/
noncomputable def processDetection (freshId : String) (det : RawDetection)
    (now : ℕ) : Detection :=
  let rawCategory := toLowerStr det.categoryName
  let typeAndLabel : HazardType × String :=
    if includes rawCategory "car" || includes rawCategory "truck" ||
        includes rawCategory "bus" || includes rawCategory "motorcycle" then
      (HazardType.VEHICLE, "VEHICLE")
    else if includes rawCategory "person" then
      (HazardType.PEDESTRIAN, "PEDESTRIAN")
    else
      (HazardType.COLLISION_RISK, "OBJECT")
  let normWidth := det.width / 1280
  let estimatedDistance := max 0.5 (min 30 (0.45 / (normWidth + 0.001)))
  { id := "det-" ++ freshId,
    type := typeAndLabel.1,
    confidence := det.score,
    bbox := some (det.originY / 720, det.originX / 1280,
      (det.originY + det.height) / 720, (det.originX + det.width) / 1280),
    distance := some estimatedDistance,
    timestamp := now,
    label := some typeAndLabel.2,
    matchScore := none }

open Classical in
/-- Best-score loop of the animate pass (src/App.tsx, lines 96 to 100):
bestScore starts at 0 and is replaced whenever a sample scores strictly
higher against the query vector. -/
noncomputable def matchBestScore (queryVector : List ℝ)
    (currentLearned : List LearnedSample) : ℝ :=
  currentLearned.foldl
    (fun bestScore sample =>
      if computeCosineSimilarity queryVector sample.embedding > bestScore then
        computeCosineSimilarity queryVector sample.embedding
      else bestScore) 0

open Classical in
/-- Per-candidate promotion step of the animate pass (src/App.tsx, lines
94 to 109): when the best score over the learned samples exceeds 0.48 the
candidate is pushed with type LEARNED, label TRAINED HAZARD and both
matchScore and confidence set to the best score; otherwise nothing is
pushed for this candidate. -/
noncomputable def promoteCandidate (det : Detection) (queryVector : List ℝ)
    (currentLearned : List LearnedSample) : Option Detection :=
  let bestScore := matchBestScore queryVector currentLearned
  if bestScore > 0.48 then
    some { det with
      type := HazardType.LEARNED,
      label := some "TRAINED HAZARD",
      matchScore := some bestScore,
      confidence := bestScore }
  else none

open Classical in
/-- Matching pass of animate (src/App.tsx, lines 77 to 114) over the raw
candidates of one frame. Each candidate carries the query vector produced
by the external embedder for its crop, or none when it has no bbox, the
crop is too small, or the embedder produced no embedding; such candidates
are skipped. When the learned-sample list is empty the whole block is
skipped and the detection list is empty. -/
noncomputable def animateMatch (rawCandidates : List (Detection × Option (List ℝ)))
    (currentLearned : List LearnedSample) : List Detection :=
  if currentLearned.length > 0 then
    rawCandidates.filterMap (fun p =>
      match p.2 with
      | none => none
      | some v => promoteCandidate p.1 v currentLearned)
  else []

/-- The new-sample construction of handleAreaSelected (src/App.tsx, lines
200 to 205): the id is the string learned- followed by the decimal value
of Date.now(), which is also stored as the timestamp. -/
def mkLearnedSample (embedding : List ℝ) (thumbnail : String)
    (now : ℕ) : LearnedSample :=
  { id := "learned-" ++ toString now,
    embedding := embedding,
    thumbnail := thumbnail,
    timestamp := now }

/-- Snapshot update applied by handleAreaSelected (src/App.tsx, lines 215
to 219): the new sample is prepended to the previous snapshot. -/
def insertSample (newSample : LearnedSample)
    (prev : List LearnedSample) : List LearnedSample :=
  newSample :: prev

/-- Snapshot update applied by handleDeleteSample (src/App.tsx, lines 248
to 252): every sample whose id equals the given id is filtered out. -/
def deleteSample (id : String)
    (prev : List LearnedSample) : List LearnedSample :=
  prev.filter (fun s => s.id != id)

/-- potholeService.getAll from src/services/supabaseClient.ts, lines 30
to 48: a successful remote read returns the remote rows; a failed select
or a thrown connection exception is caught and yields the empty list.
The remoteOk flag abstracts whether the remote call succeeded. -/
def potholeService.getAll (remoteOk : Bool)
    (remoteData : List LearnedSample) : List LearnedSample :=
  if remoteOk then remoteData else []

/-- loadMemory from src/App.tsx, lines 26 to 43: when a Supabase backend
is configured the collection comes from potholeService.getAll and the
local cache is never read; otherwise it comes from the parsed local
storage value, or stays empty when local storage has no parseable entry
(localData = none covers both a missing key and a parse failure, whose
thrown exception is caught leaving the initial empty state). -/
def loadMemory (isSupabaseConfigured : Bool) (remoteOk : Bool)
    (remoteData : List LearnedSample)
    (localData : Option (List LearnedSample)) : List LearnedSample :=
  if isSupabaseConfigured then potholeService.getAll remoteOk remoteData
  else
    match localData with
    | some d => d
    | none => []

/-- clamp as written in the spec: clamp(x, lo, hi) keeps x inside
[lo, hi]. Used to compare the distance heuristic of the source against
the formula of the spec. -/
noncomputable def clamp (x lo hi : ℝ) : ℝ :=
  max lo (min hi x)

lemma processDetection_type (freshId : String) (det : RawDetection) (now : ℕ) :
    (processDetection freshId det now).type =
      (if includes (toLowerStr det.categoryName) "car" ||
          includes (toLowerStr det.categoryName) "truck" ||
          includes (toLowerStr det.categoryName) "bus" ||
          includes (toLowerStr det.categoryName) "motorcycle" then
        HazardType.VEHICLE
      else if includes (toLowerStr det.categoryName) "person" then
        HazardType.PEDESTRIAN
      else HazardType.COLLISION_RISK) := by
  simp only [processDetection]
  split
  · rfl
  · split <;> rfl

lemma processDetection_label (freshId : String) (det : RawDetection) (now : ℕ) :
    (processDetection freshId det now).label =
      some (if includes (toLowerStr det.categoryName) "car" ||
          includes (toLowerStr det.categoryName) "truck" ||
          includes (toLowerStr det.categoryName) "bus" ||
          includes (toLowerStr det.categoryName) "motorcycle" then
        "VEHICLE"
      else if includes (toLowerStr det.categoryName) "person" then
        "PEDESTRIAN"
      else "OBJECT") := by
  simp only [processDetection]
  split
  · rfl
  · split <;> rfl

/-- Claim C6: classification follows the rule table of processDetections:
a lowercased category containing car, truck, bus or motorcycle yields
type VEHICLE with label VEHICLE; otherwise a category containing person
yields PEDESTRIAN with label PEDESTRIAN; every other category yields
COLLISION_RISK with label OBJECT. -/
theorem C6_classification_rule_table (freshId : String) (det : RawDetection)
    (now : ℕ) :
    ((includes (toLowerStr det.categoryName) "car" ||
        includes (toLowerStr det.categoryName) "truck" ||
        includes (toLowerStr det.categoryName) "bus" ||
        includes (toLowerStr det.categoryName) "motorcycle") = true →
      (processDetection freshId det now).type = HazardType.VEHICLE ∧
      (processDetection freshId det now).label = some "VEHICLE") ∧
    ((includes (toLowerStr det.categoryName) "car" ||
        includes (toLowerStr det.categoryName) "truck" ||
        includes (toLowerStr det.categoryName) "bus" ||
        includes (toLowerStr det.categoryName) "motorcycle") = false →
      includes (toLowerStr det.categoryName) "person" = true →
      (processDetection freshId det now).type = HazardType.PEDESTRIAN ∧
      (processDetection freshId det now).label = some "PEDESTRIAN") ∧
    ((includes (toLowerStr det.categoryName) "car" ||
        includes (toLowerStr det.categoryName) "truck" ||
        includes (toLowerStr det.categoryName) "bus" ||
        includes (toLowerStr det.categoryName) "motorcycle") = false →
      includes (toLowerStr det.categoryName) "person" = false →
      (processDetection freshId det now).type = HazardType.COLLISION_RISK ∧
      (processDetection freshId det now).label = some "OBJECT") := by
  refine ⟨fun h => ?_, fun h h2 => ?_, fun h h2 => ?_⟩ <;>
      rw [processDetection_type, processDetection_label]
  · simp [h]
  · simp [h, h2]
  · simp [h, h2]

/-- Witness for C6 at the three categories named in the spec: car,
person and dog. -/
theorem C6_classification_rule_table_witness :
    ((processDetection "x" ⟨"car", 1, 0, 0, 100, 100⟩ 0).type = HazardType.VEHICLE ∧
      (processDetection "x" ⟨"car", 1, 0, 0, 100, 100⟩ 0).label = some "VEHICLE") ∧
    ((processDetection "x" ⟨"person", 1, 0, 0, 100, 100⟩ 0).type = HazardType.PEDESTRIAN ∧
      (processDetection "x" ⟨"person", 1, 0, 0, 100, 100⟩ 0).label = some "PEDESTRIAN") ∧
    ((processDetection "x" ⟨"dog", 1, 0, 0, 100, 100⟩ 0).type = HazardType.COLLISION_RISK ∧
      (processDetection "x" ⟨"dog", 1, 0, 0, 100, 100⟩ 0).label = some "OBJECT") :=
  ⟨(C6_classification_rule_table "x" ⟨"car", 1, 0, 0, 100, 100⟩ 0).1 (by decide),
   (C6_classification_rule_table "x" ⟨"person", 1, 0, 0, 100, 100⟩ 0).2.1
      (by decide) (by decide),
   (C6_classification_rule_table "x" ⟨"dog", 1, 0, 0, 100, 100⟩ 0).2.2
      (by decide) (by decide)⟩

/-- Claim C10: the vehicle rule is checked before the pedestrian rule:
a category containing both a vehicle keyword and the substring person is
classified VEHICLE with label VEHICLE, never PEDESTRIAN. -/
theorem C10_vehicle_rule_first (freshId : String) (det : RawDetection)
    (now : ℕ) :
    (includes (toLowerStr det.categoryName) "car" ||
      includes (toLowerStr det.categoryName) "truck" ||
      includes (toLowerStr det.categoryName) "bus" ||
      includes (toLowerStr det.categoryName) "motorcycle") = true →
    includes (toLowerStr det.categoryName) "person" = true →
    (processDetection freshId det now).type = HazardType.VEHICLE ∧
    (processDetection freshId det now).label = some "VEHICLE" ∧
    (processDetection freshId det now).type ≠ HazardType.PEDESTRIAN := by
  intro h _
  rw [processDetection_type, processDetection_label]
  simp [h]

/-- Witness for C10 at the category personal car, which contains both
person and car. -/
theorem C10_vehicle_rule_first_witness :
    (processDetection "x" ⟨"personal car", 1, 0, 0, 100, 100⟩ 0).type =
        HazardType.VEHICLE ∧
    (processDetection "x" ⟨"personal car", 1, 0, 0, 100, 100⟩ 0).label =
        some "VEHICLE" ∧
    (processDetection "x" ⟨"personal car", 1, 0, 0, 100, 100⟩ 0).type ≠
        HazardType.PEDESTRIAN :=
  C10_vehicle_rule_first "x" ⟨"personal car", 1, 0, 0, 100, 100⟩ 0
    (by decide) (by decide)

/-- Claim C4: insert prepends the new sample to the snapshot with all
prior samples following; delete removes exactly the samples with the
given id, keeps every other sample in its original relative order, and
deleting an absent id is a no-op. -/
theorem C4_insert_delete (newSample : LearnedSample)
    (prev : List LearnedSample) (id : String) :
    (insertSample newSample prev).head? = some newSample ∧
    (insertSample newSample prev).tail = prev ∧
    (∀ x, x ∈ deleteSample id prev ↔ x ∈ prev ∧ x.id ≠ id) ∧
    (deleteSample id prev).Sublist prev ∧
    ((∀ x ∈ prev, x.id ≠ id) → deleteSample id prev = prev) := by
  refine ⟨rfl, rfl, fun x => ?_, List.filter_sublist prev, fun h => ?_⟩
  · simp [deleteSample, List.mem_filter]
  · exact List.filter_eq_self.mpr fun x hx => by simpa using h x hx

/-- Witness for C4 on a two-sample snapshot: deleting an id that is not
present leaves the snapshot unchanged. -/
theorem C4_insert_delete_witness :
    deleteSample "zzz"
        [mkLearnedSample [1] "a" 1, mkLearnedSample [2] "b" 2] =
      [mkLearnedSample [1] "a" 1, mkLearnedSample [2] "b" 2] :=
  (C4_insert_delete (mkLearnedSample [1] "a" 1)
      [mkLearnedSample [1] "a" 1, mkLearnedSample [2] "b" 2] "zzz").2.2.2.2
    (by
      intro x hx
      simp only [List.mem_cons, List.not_mem_nil, or_false] at hx
      rcases hx with h | h <;> subst h <;> decide)

/-- Claim C3, counterexample: with a remote backend configured and the
remote call failing, the code ends with an empty collection and never
consults the local durable cache, while the claim says the local cache
(holding one sample here) is loaded. -/
theorem C3_counterexample :
    loadMemory true false [] (some [mkLearnedSample [1] "t" 5]) = [] ∧
    loadMemory true false [] (some [mkLearnedSample [1] "t" 5]) ≠
      [mkLearnedSample [1] "t" 5] := by
  refine ⟨rfl, fun h => ?_⟩
  have h0 : ([] : List LearnedSample) =
      [mkLearnedSample [1] "t" 5] := h
  simp at h0

/-- Claim C3, amended: on first use, with a remote backend configured the
Store loads from the remote backend and a failed remote call yields an
empty collection without consulting the local cache; the local durable
cache is read only when no remote is configured; when every source fails
the Store ends Ready with an empty collection rather than blocking or
crashing. -/
theorem C3_load_policy (remoteOk : Bool) (remoteData : List LearnedSample)
    (localData : Option (List LearnedSample)) :
    (loadMemory true remoteOk remoteData localData =
      potholeService.getAll remoteOk remoteData) ∧
    (loadMemory true false remoteData localData = []) ∧
    (loadMemory false remoteOk remoteData localData = localData.getD []) ∧
    (loadMemory false remoteOk remoteData none = []) := by
  refine ⟨rfl, rfl, ?_, rfl⟩
  cases localData <;> rfl

/-- Claim C5: the cosine similarity of two vectors of different lengths
is 0, and so is the similarity of two equal-length vectors when either
magnitude (the square root of its sum of squares) is zero; the function
is total, so no error is ever raised. -/
theorem C5_cosine_degenerate (a b : List ℝ) :
    (a.length ≠ b.length → computeCosineSimilarity a b = 0) ∧
    (Real.sqrt (sumSq a) = 0 ∨ Real.sqrt (sumSq b) = 0 →
      computeCosineSimilarity a b = 0) := by
  constructor
  · intro h
    simp [computeCosineSimilarity, h]
  · intro h
    by_cases hl : a.length = b.length
    · have hd : Real.sqrt (sumSq a) * Real.sqrt (sumSq b) = 0 := by
        rcases h with h | h <;> rw [h] <;> ring
      simp [computeCosineSimilarity, hl, hd]
    · simp [computeCosineSimilarity, hl]

/-- Witness for C5: a length mismatch and a zero vector both give
similarity 0. -/
theorem C5_cosine_degenerate_witness :
    computeCosineSimilarity [1] [1, 2] = 0 ∧
    computeCosineSimilarity [0] [3] = 0 :=
  ⟨(C5_cosine_degenerate [1] [1, 2]).1 (by simp),
   (C5_cosine_degenerate [0] [3]).2 (Or.inl (by
      have h : sumSq [(0 : ℝ)] = 0 := by norm_num [sumSq]
      rw [h, Real.sqrt_zero]))⟩

lemma bestFold_init_le {α : Type} (g : α → ℝ) :
    ∀ (l : List α) (init : ℝ),
      init ≤ l.foldl (fun b x => if g x > b then g x else b) init := by
  intro l
  induction l with
  | nil => intro init; exact le_refl _
  | cons x xs ih =>
    intro init
    refine le_trans ?_ (ih _)
    show init ≤ if g x > init then g x else init
    by_cases h : g x > init
    · rw [if_pos h]
      exact le_of_lt h
    · rw [if_neg h]

lemma bestFold_le {α : Type} (g : α → ℝ) :
    ∀ (l : List α) (init : ℝ) (x : α), x ∈ l →
      g x ≤ l.foldl (fun b y => if g y > b then g y else b) init := by
  intro l
  induction l with
  | nil => intro init x hx; cases hx
  | cons y ys ih =>
    intro init x hx
    rcases List.mem_cons.mp hx with h | h
    · subst h
      rw [List.foldl_cons]
      refine le_trans ?_ (bestFold_init_le g ys _)
      by_cases hgt : g x > init
      · rw [if_pos hgt]
      · rw [if_neg hgt]
        exact le_of_not_lt hgt
    · exact ih _ x h

lemma bestFold_eq {α : Type} (g : α → ℝ) :
    ∀ (l : List α) (init : ℝ),
      l.foldl (fun b y => if g y > b then g y else b) init = init ∨
      ∃ x ∈ l, l.foldl (fun b y => if g y > b then g y else b) init = g x := by
  intro l
  induction l with
  | nil => intro init; exact Or.inl rfl
  | cons y ys ih =>
    intro init
    rw [List.foldl_cons]
    rcases ih (if g y > init then g y else init) with h | ⟨x, hx, heq⟩
    · by_cases hgt : g y > init
      · exact Or.inr ⟨y, List.mem_cons_self y ys, by rw [h, if_pos hgt]⟩
      · exact Or.inl (by rw [h, if_neg hgt])
    · exact Or.inr ⟨x, List.mem_cons_of_mem y hx, heq⟩

lemma matchBestScore_eq_foldl (q : List ℝ) (snap : List LearnedSample) :
    matchBestScore q snap =
      snap.foldl (fun b s =>
        if computeCosineSimilarity q s.embedding > b then
          computeCosineSimilarity q s.embedding
        else b) 0 :=
  rfl

/-- Claim C2, counterexample: for the query vector with single entry -1
against a snapshot holding the single embedding with entry 1, the only
cosine similarity is -1, yet the best-score loop returns 0 because its
accumulator starts at 0; so the best score is not the maximum of the
similarities. -/
theorem C2_counterexample :
    matchBestScore [-1] [mkLearnedSample [1] "t" 0] = 0 ∧
    computeCosineSimilarity [-1] (mkLearnedSample [1] "t" 0).embedding = -1 ∧
    (0 : ℝ) ≠ -1 := by
  have h1 : sumSq [(-1 : ℝ)] = 1 := by norm_num [sumSq]
  have h2 : sumSq [(1 : ℝ)] = 1 := by norm_num [sumSq]
  have h3 : dotProduct [(-1 : ℝ)] [(1 : ℝ)] = -1 := by
    norm_num [dotProduct]
  have hsim : computeCosineSimilarity [(-1 : ℝ)] [(1 : ℝ)] = -1 := by
    simp [computeCosineSimilarity, h1, h2, h3, Real.sqrt_one]
  refine ⟨?_, hsim, by norm_num⟩
  rw [matchBestScore_eq_foldl]
  simp only [List.foldl_cons, List.foldl_nil]
  rw [show (mkLearnedSample [1] "t" 0).embedding = [(1 : ℝ)] from rfl, hsim]
  norm_num

/-- Claim C2, amended: the best score of the matcher equals the maximum
of 0 and the cosine similarities between the query and the snapshot
entries: it is nonnegative, bounds every similarity from above, is either
0 or one of the similarities, and is 0 on the empty snapshot regardless
of the query. -/
theorem C2_best_score_max (q : List ℝ) (snap : List LearnedSample) :
    0 ≤ matchBestScore q snap ∧
    (∀ s ∈ snap, computeCosineSimilarity q s.embedding ≤ matchBestScore q snap) ∧
    (matchBestScore q snap = 0 ∨
      ∃ s ∈ snap, matchBestScore q snap = computeCosineSimilarity q s.embedding) ∧
    matchBestScore q ([] : List LearnedSample) = 0 := by
  rw [matchBestScore_eq_foldl]
  exact ⟨bestFold_init_le (fun s => computeCosineSimilarity q s.embedding) snap 0,
    fun s hs =>
      bestFold_le (fun s => computeCosineSimilarity q s.embedding) snap 0 s hs,
    bestFold_eq (fun s => computeCosineSimilarity q s.embedding) snap 0, rfl⟩

/-- Witness for C2: the single similarity in a one-sample snapshot is
bounded by the best score, which is nonnegative. -/
theorem C2_best_score_max_witness :
    computeCosineSimilarity [(3 : ℝ), 4] (mkLearnedSample [1, 0] "t" 0).embedding ≤
      matchBestScore [(3 : ℝ), 4] [mkLearnedSample [1, 0] "t" 0] ∧
    0 ≤ matchBestScore [(3 : ℝ), 4] [mkLearnedSample [1, 0] "t" 0] :=
  ⟨(C2_best_score_max [(3 : ℝ), 4] [mkLearnedSample [1, 0] "t" 0]).2.1 _
      (List.mem_cons_self _ _),
   (C2_best_score_max [(3 : ℝ), 4] [mkLearnedSample [1, 0] "t" 0]).1⟩

/-- Concrete runtime candidate used for evaluating the animate matching
pass: a generic COLLISION_RISK candidate as produced by
processDetections. -/
def demoDetection : Detection :=
  { id := "det-x",
    type := HazardType.COLLISION_RISK,
    confidence := 1,
    bbox := some (0, 0, 1, 1),
    distance := some 10,
    timestamp := 0,
    label := some "OBJECT",
    matchScore := none }

/-- Claim C1, counterexample: a candidate whose best similarity (here 0)
is at or below the 0.48 threshold does not keep its original
classification in the output: the animate pass outputs no Detection for
it at all, the frame detection list being empty. -/
theorem C1_counterexample :
    matchBestScore [(1 : ℝ), 0] [mkLearnedSample [0, 1] "t" 0] ≤ 0.48 ∧
    animateMatch [(demoDetection, some [(1 : ℝ), 0])]
      [mkLearnedSample [0, 1] "t" 0] = [] := by
  have h1 : sumSq [(1 : ℝ), 0] = 1 := by norm_num [sumSq]
  have h2 : sumSq [(0 : ℝ), 1] = 1 := by norm_num [sumSq]
  have h3 : dotProduct [(1 : ℝ), 0] [(0 : ℝ), 1] = 0 := by
    norm_num [dotProduct]
  have hsim : computeCosineSimilarity [(1 : ℝ), 0] [(0 : ℝ), 1] = 0 := by
    simp [computeCosineSimilarity, h1, h2, h3, Real.sqrt_one]
  have hbest : matchBestScore [(1 : ℝ), 0] [mkLearnedSample [0, 1] "t" 0] = 0 := by
    rw [matchBestScore_eq_foldl]
    simp only [List.foldl_cons, List.foldl_nil]
    rw [show (mkLearnedSample [0, 1] "t" 0).embedding = [(0 : ℝ), 1] from rfl,
      hsim]
    norm_num
  refine ⟨by rw [hbest]; norm_num, ?_⟩
  have hnot : ¬ matchBestScore [(1 : ℝ), 0] [mkLearnedSample [0, 1] "t" 0] > 0.48 := by
    rw [hbest]; norm_num
  simp [animateMatch, promoteCandidate, hnot]

/-- Claim C1, amended: a candidate whose best similarity against the
snapshot is strictly greater than 0.48 is output with type LEARNED, label
TRAINED HAZARD and matchScore and confidence both equal to the best
score; a candidate whose best similarity is at or below 0.48 produces no
output Detection at all (it is dropped from the frame detection list
rather than kept with its original classification). -/
theorem C1_promotion_threshold (det : Detection) (v : List ℝ)
    (learned : List LearnedSample) :
    (matchBestScore v learned > 0.48 →
      promoteCandidate det v learned = some { det with
        type := HazardType.LEARNED,
        label := some "TRAINED HAZARD",
        matchScore := some (matchBestScore v learned),
        confidence := matchBestScore v learned } ∧
      animateMatch [(det, some v)] learned =
        [{ det with
            type := HazardType.LEARNED,
            label := some "TRAINED HAZARD",
            matchScore := some (matchBestScore v learned),
            confidence := matchBestScore v learned }]) ∧
    (matchBestScore v learned ≤ 0.48 →
      promoteCandidate det v learned = none ∧
      animateMatch [(det, some v)] learned = []) := by
  constructor
  · intro h
    have hne : learned ≠ [] := by
      intro he
      subst he
      rw [show matchBestScore v [] = 0 from rfl] at h
      norm_num at h
    have hlen : learned.length > 0 := List.length_pos.mpr hne
    have hp : promoteCandidate det v learned = some { det with
        type := HazardType.LEARNED,
        label := some "TRAINED HAZARD",
        matchScore := some (matchBestScore v learned),
        confidence := matchBestScore v learned } := by
      simp only [promoteCandidate]
      rw [if_pos h]
    exact ⟨hp, by simp [animateMatch, hlen, hp]⟩
  · intro h
    have hnot : ¬ matchBestScore v learned > 0.48 := not_lt.mpr h
    have hp : promoteCandidate det v learned = none := by
      simp only [promoteCandidate]
      rw [if_neg hnot]
    refine ⟨hp, ?_⟩
    by_cases hlen : learned.length > 0
    · simp [animateMatch, hlen, hp]
    · simp [animateMatch, hlen]

/-- Witness for C1, matching the end-to-end example of the spec: one
stored sample whose embedding is the first unit vector, and a query with
cosine similarity 0.9 against it; the candidate is promoted with
matchScore 0.9. -/
theorem C1_promotion_threshold_witness :
    matchBestScore [(9 : ℝ), 3, 3, 1] [mkLearnedSample [1, 0, 0, 0] "t" 0] =
      9 / 10 ∧
    promoteCandidate demoDetection [(9 : ℝ), 3, 3, 1]
        [mkLearnedSample [1, 0, 0, 0] "t" 0] =
      some { demoDetection with
        type := HazardType.LEARNED,
        label := some "TRAINED HAZARD",
        matchScore := some (matchBestScore [(9 : ℝ), 3, 3, 1]
          [mkLearnedSample [1, 0, 0, 0] "t" 0]),
        confidence := matchBestScore [(9 : ℝ), 3, 3, 1]
          [mkLearnedSample [1, 0, 0, 0] "t" 0] } := by
  have hs100 : Real.sqrt 100 = 10 := by
    rw [show (100 : ℝ) = 10 ^ 2 by norm_num,
      Real.sqrt_sq (by norm_num : (0 : ℝ) ≤ 10)]
  have h1 : sumSq [(9 : ℝ), 3, 3, 1] = 100 := by norm_num [sumSq]
  have h2 : sumSq [(1 : ℝ), 0, 0, 0] = 1 := by norm_num [sumSq]
  have h3 : dotProduct [(9 : ℝ), 3, 3, 1] [(1 : ℝ), 0, 0, 0] = 9 := by
    norm_num [dotProduct]
  have hsim : computeCosineSimilarity [(9 : ℝ), 3, 3, 1] [(1 : ℝ), 0, 0, 0] =
      9 / 10 := by
    simp [computeCosineSimilarity, h1, h2, h3, hs100, Real.sqrt_one]
  have hbest : matchBestScore [(9 : ℝ), 3, 3, 1]
      [mkLearnedSample [1, 0, 0, 0] "t" 0] = 9 / 10 := by
    rw [matchBestScore_eq_foldl]
    simp only [List.foldl_cons, List.foldl_nil]
    rw [show (mkLearnedSample [1, 0, 0, 0] "t" 0).embedding =
      [(1 : ℝ), 0, 0, 0] from rfl, hsim]
    norm_num
  exact ⟨hbest,
    ((C1_promotion_threshold demoDetection [(9 : ℝ), 3, 3, 1]
        [mkLearnedSample [1, 0, 0, 0] "t" 0]).1
      (by rw [hbest]; norm_num)).1⟩

lemma processDetection_distance (freshId : String) (det : RawDetection)
    (now : ℕ) :
    (processDetection freshId det now).distance =
      some (max 0.5 (min 30 (0.45 / (det.width / 1280 + 0.001)))) :=
  rfl

/-- Claim C7: the estimated distance equals
clamp(0.45 / (normalizedBoxWidth + 0.001), 0.5, 30) where
normalizedBoxWidth is the box width over 1280; at normalizedBoxWidth 0.45
it equals 0.45 / 0.451, which is within 0.001 of 0.998; widths at most
0.014 of the frame clamp to 30, and widths of at least 0.899 of the frame
clamp to 0.5. -/
theorem C7_distance_heuristic (freshId : String) (det : RawDetection)
    (now : ℕ) :
    ((processDetection freshId det now).distance =
      some (clamp (0.45 / (det.width / 1280 + 0.001)) 0.5 30)) ∧
    (det.width / 1280 = 0.45 →
      (processDetection freshId det now).distance = some (0.45 / 0.451) ∧
      |(0.45 / 0.451 : ℝ) - 0.998| < 0.001) ∧
    (0 ≤ det.width → det.width / 1280 ≤ 0.014 →
      (processDetection freshId det now).distance = some 30) ∧
    (det.width / 1280 ≥ 0.899 →
      (processDetection freshId det now).distance = some 0.5) := by
  refine ⟨rfl, fun h => ⟨?_, ?_⟩, fun h0 h => ?_, fun h => ?_⟩
  · rw [processDetection_distance, h]
    have hv : (0.45 : ℝ) / (0.45 + 0.001) = 0.45 / 0.451 := by norm_num
    rw [hv, min_eq_right (by norm_num : (0.45 : ℝ) / 0.451 ≤ 30),
      max_eq_right (by norm_num : (0.5 : ℝ) ≤ 0.45 / 0.451)]
  · rw [abs_lt]
    constructor <;> norm_num
  · rw [processDetection_distance]
    have hnn : (0 : ℝ) ≤ det.width / 1280 := by positivity
    have hpos : (0 : ℝ) < det.width / 1280 + 0.001 := by linarith
    have h30 : (30 : ℝ) ≤ 0.45 / (det.width / 1280 + 0.001) := by
      rw [le_div_iff₀ hpos]
      nlinarith
    rw [min_eq_left h30, max_eq_right (by norm_num : (0.5 : ℝ) ≤ 30)]
  · rw [processDetection_distance]
    have hpos : (0 : ℝ) < det.width / 1280 + 0.001 := by linarith
    have h05 : 0.45 / (det.width / 1280 + 0.001) ≤ (0.5 : ℝ) := by
      rw [div_le_iff₀ hpos]
      nlinarith
    rw [min_eq_right (le_trans h05 (by norm_num : (0.5 : ℝ) ≤ 30)),
      max_eq_left h05]

/-- Witness for C7 at box widths 576 (normalized 0.45), 0 and 1280. -/
theorem C7_distance_heuristic_witness :
    (processDetection "x" ⟨"dog", 1, 0, 0, 576, 100⟩ 0).distance =
        some (0.45 / 0.451) ∧
    (processDetection "x" ⟨"dog", 1, 0, 0, 0, 100⟩ 0).distance = some 30 ∧
    (processDetection "x" ⟨"dog", 1, 0, 0, 1280, 100⟩ 0).distance = some 0.5 :=
  ⟨((C7_distance_heuristic "x" ⟨"dog", 1, 0, 0, 576, 100⟩ 0).2.1
      (by norm_num)).1,
   (C7_distance_heuristic "x" ⟨"dog", 1, 0, 0, 0, 100⟩ 0).2.2.1
      (by norm_num) (by norm_num),
   (C7_distance_heuristic "x" ⟨"dog", 1, 0, 0, 1280, 100⟩ 0).2.2.2
      (by norm_num)⟩

lemma toDigitsCore_shift (b : ℕ) : ∀ (fuel n : ℕ) (ds : List Char),
    Nat.toDigitsCore b fuel n ds = Nat.toDigitsCore b fuel n [] ++ ds := by
  intro fuel
  induction fuel with
  | zero => intro n ds; simp [Nat.toDigitsCore]
  | succ f ih =>
    intro n ds
    simp only [Nat.toDigitsCore]
    split
    · simp
    · rw [ih (n / b) (Nat.digitChar (n % b) :: ds),
        ih (n / b) [Nat.digitChar (n % b)]]
      simp

lemma toDigitsCore_eq_digits : ∀ (fuel : ℕ) (n : ℕ), 0 < n → n < 10 ^ fuel →
    Nat.toDigitsCore 10 fuel n [] =
      ((Nat.digits 10 n).map Nat.digitChar).reverse := by
  intro fuel
  induction fuel with
  | zero => intro n hn h; simp at h; omega
  | succ f ih =>
    intro n hn h
    simp only [Nat.toDigitsCore]
    by_cases h10 : n / 10 = 0
    · have hlt : n < 10 := by omega
      rw [if_pos h10]
      rw [Nat.digits_def' (by norm_num : 1 < 10) hn, h10]
      simp [Nat.mod_eq_of_lt hlt]
    · rw [if_neg h10]
      rw [toDigitsCore_shift]
      have hpos : 0 < n / 10 := Nat.pos_of_ne_zero h10
      have hlt : n / 10 < 10 ^ f := by
        have h2 : n < 10 ^ f * 10 := by
          rw [← pow_succ]; exact h
        omega
      rw [ih (n / 10) hpos hlt]
      rw [Nat.digits_def' (by norm_num : 1 < 10) hn]
      simp

lemma repr_eq_of_pos (n : ℕ) (hn : 0 < n) :
    Nat.repr n = (((Nat.digits 10 n).map Nat.digitChar).reverse).asString := by
  unfold Nat.repr Nat.toDigits
  have hfuel : n < 10 ^ (n + 1) :=
    lt_of_lt_of_le (Nat.lt_pow_self (by norm_num) n)
      (Nat.pow_le_pow_right (by norm_num) (Nat.le_succ n))
  rw [toDigitsCore_eq_digits (n + 1) n hn hfuel]

lemma asString_inj {l1 l2 : List Char} (h : l1.asString = l2.asString) :
    l1 = l2 := by
  have h2 := congrArg String.data h
  simpa [List.asString] using h2

lemma digitChar_inj_lt {a b : ℕ} (ha : a < 10) (hb : b < 10)
    (h : Nat.digitChar a = Nat.digitChar b) : a = b := by
  have key : ∀ x : Fin 10, ∀ y : Fin 10,
      Nat.digitChar x.val = Nat.digitChar y.val → x = y := by decide
  have h2 := key ⟨a, ha⟩ ⟨b, hb⟩ h
  exact congrArg Fin.val h2

lemma map_digitChar_inj : ∀ (l1 l2 : List ℕ), (∀ x ∈ l1, x < 10) →
    (∀ x ∈ l2, x < 10) →
    l1.map Nat.digitChar = l2.map Nat.digitChar → l1 = l2 := by
  intro l1
  induction l1 with
  | nil => intro l2 _ _ h; cases l2 <;> simp_all
  | cons a as ih =>
    intro l2 h1 h2 h
    cases l2 with
    | nil => simp_all
    | cons b bs =>
      simp only [List.map_cons, List.cons.injEq] at h
      have hab := digitChar_inj_lt (h1 a (by simp)) (h2 b (by simp)) h.1
      rw [hab, ih bs (fun x hx => h1 x (by simp [hx]))
        (fun x hx => h2 x (by simp [hx])) h.2]

lemma natRepr_inj {m n : ℕ} (h : Nat.repr m = Nat.repr n) : m = n := by
  rcases Nat.eq_zero_or_pos m with hm | hm <;>
    rcases Nat.eq_zero_or_pos n with hn | hn
  · rw [hm, hn]
  · exfalso
    subst hm
    rw [repr_eq_of_pos n hn] at h
    have h2 := asString_inj (show (['0'] : List Char).asString = _ from h)
    have h3 : (Nat.digits 10 n).map Nat.digitChar = ['0'] := by
      have h4 := congrArg List.reverse h2
      simpa using h4.symm
    have h4 : Nat.digits 10 n = [0] :=
      map_digitChar_inj (Nat.digits 10 n) [0]
        (fun x hx => Nat.digits_lt_base (by norm_num) hx)
        (by intro x hx; simp at hx; omega) (by simpa using h3)
    have h5 := Nat.ofDigits_digits 10 n
    rw [h4] at h5
    simp [Nat.ofDigits] at h5
    omega
  · exfalso
    subst hn
    rw [repr_eq_of_pos m hm] at h
    have h2 := asString_inj (show _ = (['0'] : List Char).asString from h)
    have h3 : (Nat.digits 10 m).map Nat.digitChar = ['0'] := by
      have h4 := congrArg List.reverse h2
      simpa using h4
    have h4 : Nat.digits 10 m = [0] :=
      map_digitChar_inj (Nat.digits 10 m) [0]
        (fun x hx => Nat.digits_lt_base (by norm_num) hx)
        (by intro x hx; simp at hx; omega) (by simpa using h3)
    have h5 := Nat.ofDigits_digits 10 m
    rw [h4] at h5
    simp [Nat.ofDigits] at h5
    omega
  · rw [repr_eq_of_pos m hm, repr_eq_of_pos n hn] at h
    have h2 := asString_inj h
    have h3 : (Nat.digits 10 m).map Nat.digitChar =
        (Nat.digits 10 n).map Nat.digitChar := by
      have h4 := congrArg List.reverse h2
      simpa using h4
    have h4 := map_digitChar_inj (Nat.digits 10 m) (Nat.digits 10 n)
      (fun x hx => Nat.digits_lt_base (by norm_num) hx)
      (fun x hx => Nat.digits_lt_base (by norm_num) hx) h3
    have h5 := Nat.ofDigits_digits 10 m
    rw [h4, Nat.ofDigits_digits] at h5
    exact h5.symm

lemma toString_nat_inj {m n : ℕ} (h : toString m = toString n) : m = n :=
  natRepr_inj h

/-- Claim C8, counterexample: two distinct samples created by distinct
train operations in the same millisecond (Date.now returning 5 for both)
share the id learned-5, so the id is not a unique discriminator. -/
theorem C8_counterexample :
    (mkLearnedSample [1] "a" 5).id = (mkLearnedSample [2] "b" 5).id ∧
    mkLearnedSample [1] "a" 5 ≠ mkLearnedSample [2] "b" 5 := by
  refine ⟨rfl, fun h => ?_⟩
  have h2 := congrArg LearnedSample.thumbnail h
  simp [mkLearnedSample] at h2

/-- Claim C8, amended: the id of a sample created by the Training
Workflow is the string learned- followed by the decimal creation
timestamp, so two LearnedSamples created at distinct Date.now values have
distinct ids; two samples created within the same millisecond share one
id. -/
theorem C8_id_unique_per_timestamp (e e2 : List ℝ) (th th2 : String)
    (t t2 : ℕ) (h : t ≠ t2) :
    (mkLearnedSample e th t).id ≠ (mkLearnedSample e2 th2 t2).id := by
  intro he
  apply h
  have he2 : "learned-" ++ toString t = "learned-" ++ toString t2 := he
  have h2 := congrArg String.data he2
  simp only [String.data_append] at h2
  exact toString_nat_inj (String.ext (List.append_cancel_left h2))

/-- Witness for C8: samples created at Date.now values 1 and 2 have
distinct ids. -/
theorem C8_id_unique_per_timestamp_witness :
    (mkLearnedSample [1] "a" 1).id ≠ (mkLearnedSample [1] "a" 2).id :=
  C8_id_unique_per_timestamp [1] [1] "a" "a" 1 2 (by decide)

end PotholeDetector
